import Mathlib

/-!
Verification development for the Anchorage library (a client multiplexing a
fleet of Lavalink audio nodes).  The Rust sources under src/ are shallowly
embedded: pure computations become Lean functions, stateful code becomes
explicit state passing, f64 values are modelled as rationals (with the one
transcendental term modelled over the reals), and fallible code returns
Except.  Each section names the Rust item it embeds.
-/

namespace Anchorage

/-! ## Data model (src/model/node.rs, src/model/player.rs)

JSON blob payloads (serde_json::Value) are modelled as String; f64 fields as
rationals.  Field names keep the Rust names in camelCase. -/

/-- Embeds struct FrameStats (src/model/node.rs): sent u64, nulled u32,
deficit i32. -/
structure FrameStats where
  sent : Nat
  nulled : Nat
  deficit : Int
deriving DecidableEq, Repr

/-- Embeds struct Cpu (src/model/node.rs). -/
structure Cpu where
  cores : Nat
  systemLoad : ℚ
  lavalinkLoad : ℚ
deriving DecidableEq, Repr

/-- Embeds struct Memory (src/model/node.rs). -/
structure Memory where
  free : Nat
  used : Nat
  allocated : Nat
  reservable : Nat
deriving DecidableEq, Repr

/-- Embeds struct Stats (src/model/node.rs). -/
structure Stats where
  players : Nat
  playingPlayers : Nat
  uptime : Nat
  memory : Memory
  cpu : Cpu
  frameStats : Option FrameStats
deriving DecidableEq, Repr

/-- Embeds struct Ready (src/model/node.rs). -/
structure Ready where
  resumed : Bool
  sessionId : String
deriving DecidableEq, Repr

/-- Embeds enum PlayerEvents (src/model/player.rs).  Each variant carries the
decoded guild id; the remaining payload fields are irrelevant to routing and
are collapsed into String placeholders. -/
inductive PlayerEvents where
  | TrackStartEvent (guildId : Nat) (track : String)
  | TrackEndEvent (guildId : Nat) (track : String) (reason : String)
  | TrackExceptionEvent (guildId : Nat) (message : String)
  | TrackStuckEvent (guildId : Nat) (thresholdMs : Nat)
  | WebSocketClosedEvent (guildId : Nat) (code : Nat) (reason : String)
deriving DecidableEq, Repr

/-- The guild id extraction performed by the match in
NodeManager::handle_message (src/node/client.rs lines 253-260). -/
def PlayerEvents.guildId : PlayerEvents → Nat
  | .TrackStartEvent g _ => g
  | .TrackEndEvent g _ _ => g
  | .TrackExceptionEvent g _ => g
  | .TrackStuckEvent g _ => g
  | .WebSocketClosedEvent g _ _ => g

/-- Embeds enum EventType (src/model/player.rs). -/
inductive EventType where
  | Player (e : PlayerEvents)
  | Destroyed
deriving DecidableEq, Repr

/-- Embeds enum LavalinkMessage (src/model/node.rs).  PlayerUpdate payload is
irrelevant to the claims and collapsed to the guild id string. -/
inductive LavalinkMessage where
  | Ready (data : Ready)
  | PlayerUpdate (guildId : String)
  | Stats (data : Stats)
  | Event (data : PlayerEvents)
deriving DecidableEq, Repr

/-! ## Filters (src/model/player.rs) -/

/-- Embeds struct Karaoke (src/model/player.rs). -/
structure Karaoke where
  level : Option ℚ
  monoLevel : Option ℚ
  filterBand : Option ℚ
  filterWidth : Option ℚ
deriving DecidableEq, Repr

/-- Embeds struct Timescale (src/model/player.rs). -/
structure Timescale where
  speed : Option ℚ
  pitch : Option ℚ
  rate : Option ℚ
deriving DecidableEq, Repr

/-- Embeds struct Tremolo (src/model/player.rs). -/
structure Tremolo where
  frequency : Option ℚ
  depth : Option ℚ
deriving DecidableEq, Repr

/-- Embeds struct Vibrato (src/model/player.rs). -/
structure Vibrato where
  frequency : Option ℚ
  depth : Option ℚ
deriving DecidableEq, Repr

/-- Embeds struct Rotation (src/model/player.rs). -/
structure Rotation where
  rotationHz : Option ℚ
deriving DecidableEq, Repr

/-- Embeds struct LowPass (src/model/player.rs). -/
structure LowPass where
  smoothing : Option ℚ
deriving DecidableEq, Repr

/-- Embeds struct Equalizer (src/model/player.rs). -/
structure Equalizer where
  band : Nat
  gain : ℚ
deriving DecidableEq, Repr

/-- Embeds struct Distortion (src/model/player.rs). -/
structure Distortion where
  sinOffset : Option ℚ
  sinScale : Option ℚ
  cosOffset : Option ℚ
  cosScale : Option ℚ
  tanOffset : Option ℚ
  tanScale : Option ℚ
  offset : Option ℚ
  scale : Option ℚ
deriving DecidableEq, Repr

/-- Embeds struct ChannelMix (src/model/player.rs). -/
structure ChannelMix where
  leftToLeft : Option ℚ
  leftToRight : Option ℚ
  rightToLeft : Option ℚ
  rightToRight : Option ℚ
deriving DecidableEq, Repr

/-- Embeds struct LavalinkFilters (src/model/player.rs).  plugin_filters is a
serde_json::Value, modelled as String. -/
structure LavalinkFilters where
  volume : Option ℚ
  equalizer : Option (List Equalizer)
  karaoke : Option Karaoke
  timescale : Option Timescale
  tremolo : Option Tremolo
  vibrato : Option Vibrato
  rotation : Option Rotation
  distortion : Option Distortion
  channelMix : Option ChannelMix
  lowPass : Option LowPass
  pluginFilters : Option String
deriving DecidableEq, Repr

/-- The Default derive of LavalinkFilters (all fields None). -/
def LavalinkFilters.default : LavalinkFilters where
  volume := none
  equalizer := none
  karaoke := none
  timescale := none
  tremolo := none
  vibrato := none
  rotation := none
  distortion := none
  channelMix := none
  lowPass := none
  pluginFilters := none

/-- Embeds LavalinkFilters::merge (src/model/player.rs lines 300-312).  The
Rust method mutates self with self.field = other.field.or(self.field); here
the updated self is returned. -/
def LavalinkFilters.merge (self other : LavalinkFilters) : LavalinkFilters where
  volume := other.volume.or self.volume
  equalizer := other.equalizer.or self.equalizer
  karaoke := other.karaoke.or self.karaoke
  timescale := other.timescale.or self.timescale
  tremolo := other.tremolo.or self.tremolo
  vibrato := other.vibrato.or self.vibrato
  rotation := other.rotation.or self.rotation
  distortion := other.distortion.or self.distortion
  channelMix := other.channelMix.or self.channelMix
  lowPass := other.lowPass.or self.lowPass
  pluginFilters := other.pluginFilters.or self.pluginFilters

/-- Embeds the filter payload computed by Player::update_filters
(src/player/mod.rs lines 115-130): the caller-supplied new filters, mutated
by merge with the filters fetched from the node (data.filters) passed as the
other argument; the result is submitted upstream via update_player. -/
def updateFiltersSubmitted (existing newFilters : LavalinkFilters) : LavalinkFilters :=
  newFilters.merge existing

/-- The merge rule as worded by the spec (section 4.F): the new field value
wins whenever it is Some, and the existing field value is preserved whenever
the new field is None. -/
def specMergeSubmitted (existing newFilters : LavalinkFilters) : LavalinkFilters where
  volume := newFilters.volume.or existing.volume
  equalizer := newFilters.equalizer.or existing.equalizer
  karaoke := newFilters.karaoke.or existing.karaoke
  timescale := newFilters.timescale.or existing.timescale
  tremolo := newFilters.tremolo.or existing.tremolo
  vibrato := newFilters.vibrato.or existing.vibrato
  rotation := newFilters.rotation.or existing.rotation
  distortion := newFilters.distortion.or existing.distortion
  channelMix := newFilters.channelMix.or existing.channelMix
  lowPass := newFilters.lowPass.or existing.lowPass
  pluginFilters := newFilters.pluginFilters.or existing.pluginFilters

/-! ## Ideal node selection (src/lib.rs lines 101-125)

Nodes are identified by name; the data() snapshot is modelled by pairing each
node with its reported penalties value. -/

/-- Embeds enum AnchorageError (src/model/error.rs), restricted to the
variants the claims mention; the transparent wrapper variants are collapsed
into single constructors. -/
inductive AnchorageError where
  | CreateExistingPlayer
  | NoNodesAvailable
  | NodeError
  | PlayerError
  | RestError
deriving DecidableEq, Repr

/-- Embeds the selection loop of Anchorage::get_ideal_node (src/lib.rs lines
108-119): penalties starts at 0.0; for each node in scan order, if the
running penalties value is greater than or equal to the node reported value
the node is selected, then the running value is overwritten with the node
value. -/
def idealNodeLoop : List (String × ℚ) → ℚ → Option String → Option String
  | [], _, selected => selected
  | (node, p) :: rest, penalties, selected =>
      idealNodeLoop rest p (if penalties ≥ p then some node else selected)

/-- Embeds Anchorage::get_ideal_node (src/lib.rs lines 101-125). -/
def getIdealNode (nodes : List (String × ℚ)) : Except AnchorageError String :=
  match idealNodeLoop nodes 0 none with
  | some node => .ok node
  | none => .error .NoNodesAvailable

/-! ## Penalty computation (src/node/client.rs lines 236-251)

The f64 expression f64::powf(1.05, 100.0 * system_load).round() is modelled
over the reals: powf becomes Real.rpow and f64::round is half-away-from-zero
rounding.  The penalty value itself is integer-valued and kept as a rational,
matching the f64 that holds it in the source. -/

/-- Half-away-from-zero rounding of a real to an integer, the semantics of
f64::round used by the penalty computation. -/
noncomputable def roundHalfAway (x : ℝ) : ℤ :=
  if 0 ≤ x then ⌊x + 1 / 2⌋ else -⌊-x + 1 / 2⌋

/-- The cpu addend of the penalty: round(1.05 powf (100 * system_load)),
from src/node/client.rs line 242. -/
noncomputable def cpuPenaltyTerm (systemLoad : ℚ) : ℤ :=
  roundHalfAway (Real.rpow 1.05 (100 * (systemLoad : ℝ)))

/-- Embeds the penalties computation of the Stats arm of
NodeManager::handle_message (src/node/client.rs lines 236-249): a running
f64 starting at 0.0, incremented by players, the cpu term, and, when
frame_stats is present, by deficit and nulled * 2. -/
noncomputable def computePenalties (d : Stats) : ℚ :=
  let p0 : ℚ := 0
  let p1 : ℚ := p0 + (d.players : ℚ)
  let p2 : ℚ := p1 + ((cpuPenaltyTerm d.cpu.systemLoad : ℤ) : ℚ)
  match d.frameStats with
  | some fs => p2 + (fs.deficit : ℚ) + (fs.nulled : ℚ) * 2
  | none => p2

/-- The penalty formula as worded by the spec (section 4.C.1): players_count
plus round(1.05 ^ (100 * cpu.system_load)) plus frame_stats.deficit if
present else 0, plus frame_stats.nulled * 2 if present else 0. -/
noncomputable def specPenalty (d : Stats) : ℚ :=
  (d.players : ℚ)
    + ((cpuPenaltyTerm d.cpu.systemLoad : ℤ) : ℚ)
    + (match d.frameStats with
       | some fs => (fs.deficit : ℚ)
       | none => 0)
    + (match d.frameStats with
       | some fs => (fs.nulled : ℚ) * 2
       | none => 0)

/-! ## Node manager state machine (src/node/client.rs)

The mutable fields of struct NodeManager, with the per-subscription event
channels made visible as ghost trace lists: traces g is the list of values
sent so far on the event sender registered under guild id g. -/

/-- The mutable state of struct NodeManager (src/node/client.rs lines 51-67)
relevant to the claims: session_id, statistics, penalties, the subscription
map (event_senders keys) and per-guild sent-value traces, the reconnects
counter and the destroyed flag. -/
structure ManagerState where
  sessionId : Option String
  statistics : Option Stats
  penalties : ℚ
  subs : List Nat
  traces : Nat → List EventType
  reconnects : Nat
  destroyed : Bool

/-- The initial manager state built by NodeManager::new (src/node/client.rs
lines 92-108): no session id, no statistics, penalties 0, empty subscription
map, reconnects 0, not destroyed. -/
def ManagerState.initial : ManagerState where
  sessionId := none
  statistics := none
  penalties := 0
  subs := []
  traces := fun _ => []
  reconnects := 0
  destroyed := false

/-- Embeds NodeManager::send_players_destroy (src/node/client.rs lines
166-175): first scan the map sending Destroyed on every registered sender,
then clear the map.  The broadcast happens before the clear, so every
subscription live at entry has Destroyed appended to its trace. -/
def sendPlayersDestroy (st : ManagerState) : ManagerState :=
  { st with
    traces := fun g =>
      if st.subs.contains g then st.traces g ++ [EventType.Destroyed]
      else st.traces g
    subs := [] }

/-- Embeds the state effect of NodeManager::disconnect (src/node/client.rs
lines 355-363): close the connection, send_players_destroy, reset the
reconnects counter. -/
def managerDisconnect (st : ManagerState) : ManagerState :=
  { sendPlayersDestroy st with reconnects := 0 }

/-- Embeds the state effect of NodeManager::destroy (src/node/client.rs
lines 367-371): disconnect, then set destroyed. -/
def managerDestroy (st : ManagerState) : ManagerState :=
  { managerDisconnect st with destroyed := true }

/-- Embeds the cleanup performed by NodeManager::start after the handle loop
exits (src/node/client.rs lines 143-150): send_players_destroy. -/
def managerExitCleanup (st : ManagerState) : ManagerState :=
  sendPlayersDestroy st

/-- Embeds the message arms of NodeManager::handle_message
(src/node/client.rs lines 217-271): Ready stores the session id; Stats
stores the frame and recomputes penalties; Event routes to the subscription
registered under the guild id, silently dropping when absent; PlayerUpdate
changes nothing. -/
noncomputable def handleMessage (st : ManagerState) : LavalinkMessage → ManagerState
  | .Ready d => { st with sessionId := some d.sessionId }
  | .PlayerUpdate _ => st
  | .Stats d => { st with statistics := some d, penalties := computePenalties d }
  | .Event e =>
      if st.subs.contains e.guildId then
        { st with
          traces := fun g =>
            if g = e.guildId then st.traces g ++ [EventType.Player e]
            else st.traces g }
      else st

/-- Processing a sequence of stats frames through the manager loop. -/
noncomputable def processStats (st : ManagerState) (frames : List Stats) : ManagerState :=
  frames.foldl (fun s d => handleMessage s (.Stats d)) st

/-! ## Reconnect procedure (src/node/client.rs lines 276-351)

NodeManager::connect short-circuits to Ok when the stream is available;
otherwise it loops: increment reconnects, attempt the handshake (the outcome
of the attempt made at counter value k is given by the oracle attemptOk k),
break on success, on failure sleep 5 s and continue while reconnects <
reconnect_tries, else reset the counter and return the error.  After the
loop (success) the counter is reset and Ok returned.  The observable outcome
records the number of handshake attempts and 5-second sleeps performed. -/

/-- Observable outcome of NodeManager::connect: whether Ok was returned, how
many handshake attempts were made, how many 5-second sleeps happened, and
the final value of the reconnects counter. -/
structure ConnectOutcome where
  success : Bool
  attempts : Nat
  sleeps : Nat
  finalReconnects : Nat
deriving DecidableEq, Repr

/-- Embeds the loop body of NodeManager::connect (src/node/client.rs lines
281-346), entered with counter value r.  attemptOk k is the success of the
handshake attempted when the counter holds k. -/
def connectLoop (tries : Nat) (attemptOk : Nat → Bool) (r : Nat) : ConnectOutcome :=
  if attemptOk (r + 1) then
    { success := true, attempts := 1, sleeps := 0, finalReconnects := 0 }
  else if _h : r + 1 < tries then
    { success := (connectLoop tries attemptOk (r + 1)).success
      attempts := (connectLoop tries attemptOk (r + 1)).attempts + 1
      sleeps := (connectLoop tries attemptOk (r + 1)).sleeps + 1
      finalReconnects := (connectLoop tries attemptOk (r + 1)).finalReconnects }
  else
    { success := false, attempts := 1, sleeps := 0, finalReconnects := 0 }
termination_by tries - r

/-- Embeds NodeManager::connect (src/node/client.rs lines 276-351):
short-circuit to Ok with no attempt when the stream is available, otherwise
run the reconnect loop starting from the current counter value. -/
def managerConnect (available : Bool) (tries : Nat) (attemptOk : Nat → Bool)
    (r : Nat) : ConnectOutcome :=
  if available then
    { success := true, attempts := 0, sleeps := 0, finalReconnects := r }
  else connectLoop tries attemptOk r

/-! ## Rest client (src/node/rest.rs)

Asynchronous HTTP is modelled by an oracle mapping each built request to the
response the server would produce.  Every operation returns the Except value
of the Rust function together with the list of HTTP requests it actually
executed, so that absence of network traffic is provable.  Body decoding
(serde_json::from_str) is abstracted by a decoder oracle per result type. -/

/-- Embeds enum LavalinkRestError (src/model/error.rs lines 24-37); the
transparent SerdeParse variant is the decode failure. -/
inductive RestError where
  | NodeError
  | SerdeParse
  | HttpError
  | ResponseReceivedNotOk (status : Nat)
  | NoSessionId
  | NothingReturned
deriving DecidableEq, Repr

/-- An HTTP request as built by Rest: method plus full URL (query string
included) plus optional body. -/
structure HttpRequest where
  method : String
  url : String
  body : Option String
deriving DecidableEq, Repr

/-- An HTTP response: status code and body text. -/
structure HttpResponse where
  status : Nat
  body : String
deriving DecidableEq, Repr

/-- reqwest StatusCode::is_success: status in 200..=299. -/
def isSuccess (status : Nat) : Bool :=
  200 ≤ status && status < 300

/-- Embeds Rest::make_request (src/node/rest.rs lines 195-217) applied to
the response the oracle returns for the built request: a non-2xx status
yields ResponseReceivedNotOk carrying the status, an empty body yields Ok
none, a body the decoder rejects yields the decode error, otherwise Ok some
of the decoded value. -/
def makeRequest {α : Type} (decode : String → Option α) (resp : HttpResponse) :
    Except RestError (Option α) :=
  if isSuccess resp.status then
    if resp.body = "" then .ok none
    else
      match decode resp.body with
      | some v => .ok (some v)
      | none => .error .SerdeParse
  else .error (.ResponseReceivedNotOk resp.status)

/-- The .ok_or(NothingReturned) step shared by the value-returning Rest
operations. -/
def requireValue {α : Type} (r : Except RestError (Option α)) : Except RestError α :=
  match r with
  | .ok (some v) => .ok v
  | .ok none => .error .NothingReturned
  | .error e => .error e

/-- Embeds Rest::get_session_id (src/node/rest.rs lines 39-42). -/
def getSessionId (sessionId : Option String) : Except RestError String :=
  match sessionId with
  | some s => .ok s
  | none => .error .NoSessionId

/-- URL of GET/PATCH/DELETE /sessions/sid/players/gid. -/
def playerUrl (base sid : String) (guildId : Nat) : String :=
  base ++ "/sessions/" ++ sid ++ "/players/" ++ toString guildId

/-- The GET request built by Rest::get_player. -/
def getPlayerReq (base sid : String) (guildId : Nat) : HttpRequest :=
  { method := "GET", url := playerUrl base sid guildId, body := none }

/-- The DELETE request built by Rest::destroy_player. -/
def destroyPlayerReq (base sid : String) (guildId : Nat) : HttpRequest :=
  { method := "DELETE", url := playerUrl base sid guildId, body := none }

/-- The POST request built by Rest::unmark_failed_address. -/
def unmarkReq (base addr : String) : HttpRequest :=
  { method := "POST", url := base ++ "/routeplanner/free/address", body := some addr }

/-- Embeds Rest::get_player (src/node/rest.rs lines 69-80): resolve the
session id (failing before any request when absent), build the URL, execute
one request, require a value. -/
def restGetPlayer {α : Type} (sessionId : Option String) (base : String)
    (guildId : Nat) (oracle : HttpRequest → HttpResponse)
    (decode : String → Option α) : Except RestError α × List HttpRequest :=
  match sessionId with
  | none => (.error .NoSessionId, [])
  | some sid =>
      (requireValue (makeRequest decode (oracle (getPlayerReq base sid guildId))),
       [getPlayerReq base sid guildId])

/-- Embeds Rest::get_players (src/node/rest.rs lines 83-93). -/
def restGetPlayers {α : Type} (sessionId : Option String) (base : String)
    (oracle : HttpRequest → HttpResponse)
    (decode : String → Option α) : Except RestError α × List HttpRequest :=
  match sessionId with
  | none => (.error .NoSessionId, [])
  | some sid =>
      let req : HttpRequest :=
        { method := "GET", url := base ++ "/sessions/" ++ sid ++ "/players", body := none }
      (requireValue (makeRequest decode (oracle req)), [req])

/-- Embeds Rest::update_player (src/node/rest.rs lines 96-117): PATCH with
the noReplace query parameter and the serialized options as body. -/
def restUpdatePlayer {α : Type} (sessionId : Option String) (base : String)
    (guildId : Nat) (noReplace : Bool) (payload : String)
    (oracle : HttpRequest → HttpResponse)
    (decode : String → Option α) : Except RestError α × List HttpRequest :=
  match sessionId with
  | none => (.error .NoSessionId, [])
  | some sid =>
      let req : HttpRequest :=
        { method := "PATCH"
          url := playerUrl base sid guildId ++ "?noReplace=" ++ toString noReplace
          body := some payload }
      (requireValue (makeRequest decode (oracle req)), [req])

/-- Embeds Rest::destroy_player (src/node/rest.rs lines 120-131): DELETE;
the Ok result of make_request is discarded, so an empty body is tolerated. -/
def restDestroyPlayer (sessionId : Option String) (base : String)
    (guildId : Nat) (oracle : HttpRequest → HttpResponse)
    (decodeUnit : String → Option Unit) : Except RestError Unit × List HttpRequest :=
  match sessionId with
  | none => (.error .NoSessionId, [])
  | some sid =>
      ((makeRequest decodeUnit (oracle (destroyPlayerReq base sid guildId))).map (fun _ => ()),
       [destroyPlayerReq base sid guildId])

/-- Embeds Rest::update_session (src/node/rest.rs lines 134-150): PATCH on
/sessions/sid with the serialized options as body. -/
def restUpdateSession {α : Type} (sessionId : Option String) (base : String)
    (payload : String) (oracle : HttpRequest → HttpResponse)
    (decode : String → Option α) : Except RestError α × List HttpRequest :=
  match sessionId with
  | none => (.error .NoSessionId, [])
  | some sid =>
      let req : HttpRequest :=
        { method := "PATCH", url := base ++ "/sessions/" ++ sid, body := some payload }
      (requireValue (makeRequest decode (oracle req)), [req])

/-- Embeds Rest::unmark_failed_address (src/node/rest.rs lines 173-183):
POST on /routeplanner/free/address; the Ok result of make_request is
discarded, so an empty body is tolerated.  Not session-scoped. -/
def restUnmarkFailedAddress (base : String) (address : String)
    (oracle : HttpRequest → HttpResponse)
    (decodeUnit : String → Option Unit) : Except RestError Unit × List HttpRequest :=
  ((makeRequest decodeUnit (oracle (unmarkReq base address))).map (fun _ => ()),
   [unmarkReq base address])

/-! ## Fleet registry (src/lib.rs)

The registry maps node names to node handles; for the claims, a node handle
is represented by its subscription map, the list of guild ids registered in
its events_sender map.  The per-guild event channels are again made visible
as ghost traces (guild ids are fleet-unique under the invariant).  The
concurrent scc HashMap has unique keys; it is modelled as an association
list, with first-match lookup. -/

/-- The registry state of struct Anchorage (src/lib.rs lines 21-29): nodes
by name, each carrying its subscription key list, plus the ghost per-guild
traces of values sent on event senders. -/
structure RegistryState where
  nodes : List (String × List Nat)
  traces : Nat → List EventType

/-- Embeds Anchorage::get_node_for_player (src/lib.rs lines 128-132): the
name of the first node whose subscription map contains the guild id. -/
def getNodeForPlayer (r : RegistryState) (guildId : Nat) : Option String :=
  (r.nodes.find? (fun p => p.2.contains guildId)).map (fun p => p.1)

/-- Inserting a guild id into the subscription map of the named node (the
insert into node.events_sender in Anchorage::create_player); the map has
unique keys, so the first entry with that name is updated. -/
def insertSub : List (String × List Nat) → String → Nat → List (String × List Nat)
  | [], _, _ => []
  | (n, subs) :: rest, name, g =>
      if n = name then (n, g :: subs) :: rest
      else (n, subs) :: insertSub rest name g

/-- Removing a guild id from the subscription map of the named node (the
remove_async in Anchorage::destroy_player). -/
def removeSub : List (String × List Nat) → String → Nat → List (String × List Nat)
  | [], _, _ => []
  | (n, subs) :: rest, name, g =>
      if n = name then (n, subs.erase g) :: rest
      else (n, subs) :: removeSub rest name g

/-- Embeds Anchorage::create_player (src/lib.rs lines 135-158): reject with
CreateExistingPlayer when any node already contains the guild id; otherwise
Player::new runs (its update_connection REST call may fail, modelled by
playerNewOk, in which case the error propagates before any insertion) and
the fresh event sender is inserted into the given node's subscription map. -/
def createPlayer (r : RegistryState) (guildId : Nat) (node : String)
    (playerNewOk : Bool) : Except AnchorageError RegistryState :=
  if (getNodeForPlayer r guildId).isSome then .error .CreateExistingPlayer
  else if playerNewOk then
    .ok { r with nodes := insertSub r.nodes node guildId }
  else .error .PlayerError

/-- Embeds Anchorage::destroy_player (src/lib.rs lines 161-175): when no
node owns the guild id, return Ok doing nothing; otherwise issue the REST
destroy on the owning node (restOk gives its outcome; on failure the error
propagates with no further effect), send one Destroyed on the guild's event
sender, and remove the subscription from the owning node's map.  The second
component lists the REST destroy calls issued as (node, guild) pairs. -/
def destroyPlayer (r : RegistryState) (guildId : Nat) (restOk : Bool) :
    Except AnchorageError RegistryState × List (String × Nat) :=
  match getNodeForPlayer r guildId with
  | none => (.ok r, [])
  | some name =>
      if restOk then
        (.ok { nodes := removeSub r.nodes name guildId
               traces := fun g =>
                 if g = guildId then r.traces g ++ [EventType.Destroyed]
                 else r.traces g },
         [(name, guildId)])
      else (.error .RestError, [(name, guildId)])

/-- First-match lookup in the registry map (get_async on the scc HashMap). -/
def lookupNode (r : RegistryState) (name : String) : Option (List Nat) :=
  (r.nodes.find? (fun p => p.1 = name)).map (fun p => p.2)

/-- Embeds Anchorage::connect (src/lib.rs lines 178-185): when the name is
absent from the map, fall through to Ok without any action; otherwise
delegate to the node handle, whose outcome is given by nodeConnect. -/
def registryConnect (r : RegistryState) (name : String)
    (nodeConnect : Except AnchorageError Unit) : Except AnchorageError RegistryState :=
  match lookupNode r name with
  | none => .ok r
  | some _ => nodeConnect.map (fun _ => r)

/-- Removal of a node entry from the registry map by name. -/
def removeNode : List (String × List Nat) → String → List (String × List Nat)
  | [], _ => []
  | (n, subs) :: rest, name =>
      if n = name then rest
      else (n, subs) :: removeNode rest name

/-- Embeds Anchorage::disconnect (src/lib.rs lines 188-201): when the name
is absent, fall through to Ok without any action; otherwise disconnect the
node (its subscription map is cleared by the manager), and when destroy is
set also destroy it and remove it from the registry map. -/
def registryDisconnect (r : RegistryState) (name : String) (destroy : Bool) :
    Except AnchorageError RegistryState :=
  match lookupNode r name with
  | none => .ok r
  | some subs =>
      let cleared : RegistryState :=
        { nodes := r.nodes.map (fun p => if p.1 = name then (p.1, []) else p)
          traces := fun g =>
            if subs.contains g then r.traces g ++ [EventType.Destroyed]
            else r.traces g }
      if destroy then .ok { cleared with nodes := removeNode cleared.nodes name }
      else .ok cleared

/-- The number of nodes whose subscription map contains the guild id. -/
def ownerCount (r : RegistryState) (guildId : Nat) : Nat :=
  r.nodes.countP (fun p => p.2.contains guildId)

/-- P1, unique ownership: every guild id is in the subscription map of at
most one node fleet-wide. -/
def UniqueOwnership (r : RegistryState) : Prop :=
  ∀ g : Nat, ownerCount r g ≤ 1

/-- A registry-level operation of the sequences P1 quantifies over. -/
inductive RegistryOp where
  | create (guildId : Nat) (node : String) (playerNewOk : Bool)
  | destroy (guildId : Nat) (restOk : Bool)

/-- Runtime effect of one operation on the registry state: an operation that
returns an error leaves the state unchanged. -/
def applyOp (r : RegistryState) : RegistryOp → RegistryState
  | .create g n ok =>
      match createPlayer r g n ok with
      | .ok r2 => r2
      | .error _ => r
  | .destroy g ok =>
      match (destroyPlayer r g ok).1 with
      | .ok r2 => r2
      | .error _ => r

/-- Running a sequence of create_player / destroy_player operations. -/
def runOps (r : RegistryState) (ops : List RegistryOp) : RegistryState :=
  ops.foldl applyOp r

/-! ## Concrete example states used by the witnesses -/

/-- Existing filters fetched from the node in the C2 evaluation: volume set
to 1. -/
def c2Existing : LavalinkFilters :=
  { LavalinkFilters.default with volume := some 1 }

/-- New filters passed to update_filters in the C2 evaluation: volume set to
1/2. -/
def c2New : LavalinkFilters :=
  { LavalinkFilters.default with volume := some (1 / 2) }

/-- A stats frame with frame_stats present (deficit 10, nulled 2). -/
def exampleFrame : Stats where
  players := 1
  playingPlayers := 1
  uptime := 0
  memory := { free := 0, used := 0, allocated := 0, reservable := 0 }
  cpu := { cores := 4, systemLoad := 1 / 2, lavalinkLoad := 0 }
  frameStats := some { sent := 0, nulled := 2, deficit := 10 }

/-- A stats frame without frame_stats. -/
def exampleFrame2 : Stats where
  players := 5
  playingPlayers := 3
  uptime := 7
  memory := { free := 0, used := 0, allocated := 0, reservable := 0 }
  cpu := { cores := 2, systemLoad := 1 / 10, lavalinkLoad := 0 }
  frameStats := none

/-- A manager state with guild 42 subscribed. -/
def exampleManager : ManagerState :=
  { ManagerState.initial with subs := [42] }

/-- A two-node registry with no players. -/
def exampleRegistry : RegistryState where
  nodes := [("a", []), ("b", [])]
  traces := fun _ => []

/-- A registry where node a owns guild 42. -/
def exampleRegistryOwned : RegistryState where
  nodes := [("a", [42]), ("b", [])]
  traces := fun _ => []

/-- The oracle answering every request with 204 and an empty body. -/
def oracleEmpty : HttpRequest → HttpResponse := fun _ => { status := 204, body := "" }

/-- The oracle answering every request with 404. -/
def oracleNotFound : HttpRequest → HttpResponse := fun _ => { status := 404, body := "err" }

/-- The oracle answering every request with 200 and a non-empty body. -/
def oracleGarbage : HttpRequest → HttpResponse := fun _ => { status := 200, body := "garbage" }

/-! ## Claim theorems -/

/-- C1: the claim says get_ideal_node returns, for every non-empty fleet,
the node with the true minimum penalty, and NoNodesAvailable only for the
empty fleet.  The selection loop of the source (src/lib.rs lines 108-119)
compares against a running variable that is overwritten on every iteration
instead of the running minimum: on the one-node fleet [(a, 1)] it selects
nothing and returns NoNodesAvailable, and on the three-node fleet of spec
scenario 1 (penalties 7, 27, 13) it returns n3 (penalty 13) instead of n1
(penalty 7).  The spec itself flags this as a source bug and mandates the
true minimum, so the claim is right and the code wrong. -/
theorem c1_get_ideal_node_code_bug :
    getIdealNode [("a", (1 : ℚ))] = .error AnchorageError.NoNodesAvailable
    ∧ getIdealNode [("n1", (7 : ℚ)), ("n2", 27), ("n3", 13)] = .ok "n3"
    ∧ (7 : ℚ) < 13 := by
  refine ⟨rfl, rfl, by norm_num⟩

/-- C2: the claim says the filters submitted by update_filters are the
field-wise merge in which the new field value wins whenever it is Some.
Player::update_filters (src/player/mod.rs line 121) calls
filters.merge(data.filters) with the merge of src/model/player.rs lines
300-312, in which the other argument (the existing filters) wins, so when
both sides are Some the existing value is kept: with existing volume 1 and
new volume 1/2 the code submits volume 1 while the claim demands 1/2.
update_filters as coded can therefore never change an already-set field,
contradicting its own name and doc comment; the spec is clearly the intent
and the code a slip. -/
theorem c2_update_filters_code_bug :
    (updateFiltersSubmitted c2Existing c2New).volume = some 1
    ∧ (specMergeSubmitted c2Existing c2New).volume = some (1 / 2)
    ∧ updateFiltersSubmitted c2Existing c2New ≠ specMergeSubmitted c2Existing c2New := by
  refine ⟨rfl, rfl, ?_⟩
  intro h
  have hv : (updateFiltersSubmitted c2Existing c2New).volume
      = (specMergeSubmitted c2Existing c2New).volume := by rw [h]
  simp only [updateFiltersSubmitted, specMergeSubmitted, c2Existing, c2New,
    LavalinkFilters.merge, LavalinkFilters.default, Option.or] at hv
  exact absurd (Option.some.inj hv) (by norm_num)

/-- C4: every session-scoped Rest operation (get_player, get_players,
update_player, destroy_player, update_session) issued while session_id is
absent returns the NoSessionId error and executes no HTTP request
(src/node/rest.rs lines 39-42 and the session-scoped operations, each of
which resolves the session id while building the URL, before any
execution). -/
theorem c4_session_gate {α : Type} (base : String) (g : Nat) (noReplace : Bool)
    (payload : String) (oracle : HttpRequest → HttpResponse)
    (decode : String → Option α) (decodeU : String → Option Unit) :
    restGetPlayer none base g oracle decode = (.error .NoSessionId, [])
    ∧ restGetPlayers none base oracle decode = (.error .NoSessionId, [])
    ∧ restUpdatePlayer none base g noReplace payload oracle decode = (.error .NoSessionId, [])
    ∧ restDestroyPlayer none base g oracle decodeU = (.error .NoSessionId, [])
    ∧ restUpdateSession none base payload oracle decode = (.error .NoSessionId, [])
    ∧ getSessionId none = .error .NoSessionId :=
  ⟨rfl, rfl, rfl, rfl, rfl, rfl⟩

/-- C4 witness: with no session id, get_player for guild 7 against the
always-200 oracle returns NoSessionId and executes no request. -/
theorem c4_session_gate_witness :
    restGetPlayer none "b" 7 oracleEmpty (fun _ => (none : Option Nat))
      = (.error .NoSessionId, [])
    ∧ restDestroyPlayer none "b" 7 oracleEmpty (fun _ => none)
      = (.error .NoSessionId, []) :=
  ⟨(c4_session_gate "b" 7 false "" oracleEmpty (fun _ => (none : Option Nat))
      (fun _ => none)).1,
   (c4_session_gate "b" 7 false "" oracleEmpty (fun _ => (none : Option Nat))
      (fun _ => none)).2.2.2.1⟩

/-- C10: registry-level connect(name) and disconnect(name, destroy) on a
name absent from the registry map fall through the if-let and return Ok(())
without any action, leaving the registry unchanged (src/lib.rs lines 178-201). -/
theorem c10_missing_node_noop (r : RegistryState) (name : String) (destroy : Bool)
    (nodeConnect : Except AnchorageError Unit)
    (h : lookupNode r name = none) :
    registryConnect r name nodeConnect = .ok r
    ∧ registryDisconnect r name destroy = .ok r := by
  constructor
  · unfold registryConnect
    rw [h]
  · unfold registryDisconnect
    rw [h]

/-- C10 witness: connect and disconnect on the name z, absent from the
two-node example registry, return Ok with the registry unchanged. -/
theorem c10_missing_node_noop_witness :
    registryConnect exampleRegistry "z" (.ok ()) = .ok exampleRegistry
    ∧ registryDisconnect exampleRegistry "z" true = .ok exampleRegistry :=
  c10_missing_node_noop exampleRegistry "z" true (.ok ()) rfl

/-- C5: on disconnect, destroy, or manager-loop exit, send_players_destroy
runs: every subscription live at that moment gets exactly one Destroyed
appended to its trace (subscriptions not in the map get nothing), the
broadcast covers the map as it was before it is cleared, the map ends empty,
and afterwards no further values are delivered: event dispatch on the
cleared map drops the event, and a repeated cleanup appends nothing
(src/node/client.rs lines 143-150, 166-175, 355-371). -/
theorem c5_terminal_delivery (st : ManagerState) (g : Nat) (e : PlayerEvents) :
    (g ∈ st.subs → (sendPlayersDestroy st).traces g = st.traces g ++ [EventType.Destroyed])
    ∧ (g ∉ st.subs → (sendPlayersDestroy st).traces g = st.traces g)
    ∧ (sendPlayersDestroy st).subs = []
    ∧ (handleMessage (sendPlayersDestroy st) (.Event e)).traces g
        = (sendPlayersDestroy st).traces g
    ∧ (sendPlayersDestroy (sendPlayersDestroy st)).traces g = (sendPlayersDestroy st).traces g
    ∧ (managerDisconnect st).traces g = (sendPlayersDestroy st).traces g
    ∧ (managerDestroy st).traces g = (sendPlayersDestroy st).traces g
    ∧ managerExitCleanup st = sendPlayersDestroy st := by
  refine ⟨?_, ?_, rfl, ?_, ?_, rfl, rfl, rfl⟩
  · intro hmem
    simp [sendPlayersDestroy, List.contains, hmem]
  · intro hmem
    simp only [sendPlayersDestroy]
    rw [if_neg]
    simpa using hmem
  · simp [handleMessage, sendPlayersDestroy]
  · simp [sendPlayersDestroy]

/-- C5 witness: in the example manager state, guild 42 is subscribed and
receives exactly one Destroyed on cleanup, while the unsubscribed guild 7
receives nothing; the map ends empty. -/
theorem c5_terminal_delivery_witness :
    (sendPlayersDestroy exampleManager).traces 42
      = exampleManager.traces 42 ++ [EventType.Destroyed]
    ∧ (sendPlayersDestroy exampleManager).traces 7 = exampleManager.traces 7
    ∧ (sendPlayersDestroy exampleManager).subs = [] :=
  ⟨(c5_terminal_delivery exampleManager 42 (.TrackEndEvent 42 "t" "r")).1 (by simp [exampleManager]),
   (c5_terminal_delivery exampleManager 7 (.TrackEndEvent 42 "t" "r")).2.1 (by simp [exampleManager]),
   (c5_terminal_delivery exampleManager 42 (.TrackEndEvent 42 "t" "r")).2.2.1⟩

/-- C9: destroy_player on a registered tenant issues the REST destroy call
on the owning node, then appends exactly one Destroyed to that tenant's
subscription trace (other tenants' traces untouched), then removes the
subscription from the owning node's map; destroy_player on a tenant no node
owns returns Ok doing nothing and issuing no REST call (src/lib.rs lines
161-175). -/
theorem c9_destroy_flow (r : RegistryState) (g : Nat) (name : String) (restOk : Bool) :
    (getNodeForPlayer r g = some name →
      (destroyPlayer r g true).2 = [(name, g)]
      ∧ ∃ r2, (destroyPlayer r g true).1 = .ok r2
          ∧ r2.traces g = r.traces g ++ [EventType.Destroyed]
          ∧ (∀ g2, g2 ≠ g → r2.traces g2 = r.traces g2)
          ∧ r2.nodes = removeSub r.nodes name g)
    ∧ (getNodeForPlayer r g = none → destroyPlayer r g restOk = (.ok r, [])) := by
  constructor
  · intro h
    unfold destroyPlayer
    rw [h]
    refine ⟨rfl, _, rfl, by simp, ?_, rfl⟩
    intro g2 hg2
    simp [hg2]
  · intro h
    unfold destroyPlayer
    rw [h]

/-- C9 witness: in the registry where node a owns guild 42, destroying 42
issues the REST destroy on a and a second destroy of the now-absent guild 7
is a no-op returning Ok. -/
theorem c9_destroy_flow_witness :
    (destroyPlayer exampleRegistryOwned 42 true).2 = [("a", 42)]
    ∧ destroyPlayer exampleRegistryOwned 7 true = (.ok exampleRegistryOwned, []) :=
  ⟨((c9_destroy_flow exampleRegistryOwned 42 "a" true).1 rfl).1,
   (c9_destroy_flow exampleRegistryOwned 7 "a" true).2 rfl⟩

/-- Half-away-from-zero rounding of a nonnegative real is nonnegative. -/
theorem roundHalfAway_nonneg (x : ℝ) (hx : 0 ≤ x) : 0 ≤ roundHalfAway x := by
  unfold roundHalfAway
  rw [if_pos hx, Int.le_floor]
  push_cast
  linarith

/-- The cpu addend of the penalty is nonnegative: a power of 1.05 is
nonnegative and so is its rounding. -/
theorem cpuPenaltyTerm_nonneg (load : ℚ) : 0 ≤ cpuPenaltyTerm load := by
  unfold cpuPenaltyTerm
  exact roundHalfAway_nonneg _ (Real.rpow_nonneg (by norm_num) _)

/-- C3: processing a stats frame stores it and sets the penalty to
players_count + round(1.05 ^ (100 * cpu.system_load)) + frame_stats.deficit
+ 2 * frame_stats.nulled, the frame_stats addends contributing zero when
frame_stats is absent; the penalty is nonnegative whenever the declared
ranges hold (deficit nonnegative; the other addends are nonnegative
unconditionally); and after any sequence of stats frames the final penalty
is the formula applied to the last frame (src/node/client.rs lines 236-251). -/
theorem c3_penalty_formula (st : ManagerState) (d : Stats) (frames : List Stats)
    (hdef : ∀ fs, d.frameStats = some fs → 0 ≤ fs.deficit) :
    (handleMessage st (.Stats d)).penalties = specPenalty d
    ∧ (handleMessage st (.Stats d)).statistics = some d
    ∧ 0 ≤ specPenalty d
    ∧ (processStats st (frames ++ [d])).penalties = specPenalty d := by
  have hform : computePenalties d = specPenalty d := by
    unfold computePenalties specPenalty
    cases hfs : d.frameStats with
    | none => simp
    | some fs =>
        simp [hfs]
        try ring
  have h1 : (0 : ℚ) ≤ (d.players : ℚ) := Nat.cast_nonneg _
  have h2 : (0 : ℚ) ≤ ((cpuPenaltyTerm d.cpu.systemLoad : ℤ) : ℚ) := by
    exact_mod_cast cpuPenaltyTerm_nonneg _
  have hnn : 0 ≤ specPenalty d := by
    unfold specPenalty
    cases hfs : d.frameStats with
    | none => simp; linarith
    | some fs =>
        have h3 : (0 : ℚ) ≤ (fs.deficit : ℚ) := by exact_mod_cast hdef fs hfs
        have h4 : (0 : ℚ) ≤ (fs.nulled : ℚ) * 2 := by positivity
        simp [hfs]; linarith
  have hlast : processStats st (frames ++ [d])
      = handleMessage (processStats st frames) (.Stats d) := by
    unfold processStats
    rw [List.foldl_append]
    rfl
  exact ⟨hform, rfl, hnn, by rw [hlast]; exact hform⟩

/-- C3 witness: the penalty stored for the concrete frame with frame_stats
deficit 10 and nulled 2 equals the spec formula, is nonnegative, and is the
final penalty after the two-frame sequence ending in that frame. -/
theorem c3_penalty_formula_witness :
    (handleMessage ManagerState.initial (.Stats exampleFrame)).penalties
      = specPenalty exampleFrame
    ∧ 0 ≤ specPenalty exampleFrame
    ∧ (processStats ManagerState.initial ([exampleFrame2] ++ [exampleFrame])).penalties
      = specPenalty exampleFrame := by
  have hdef : ∀ fs, exampleFrame.frameStats = some fs → 0 ≤ fs.deficit := by
    intro fs h
    simp only [exampleFrame] at h
    cases h
    decide
  have h := c3_penalty_formula ManagerState.initial exampleFrame [exampleFrame2] hdef
  exact ⟨h.1, h.2.2.1, h.2.2.2⟩

/-- Outcome invariants of the reconnect loop, by induction on the remaining
budget tries - r: the final counter is always reset to 0, at least one and
at most max(tries - r, 1) attempts are made, one 5-second sleep separates
each pair of consecutive attempts, an always-failing handshake exhausts
exactly max(tries - r, 1) attempts without success, and a first-attempt
success returns immediately. -/
theorem connectLoop_props (n : Nat) : ∀ tries ok r, tries - r ≤ n →
    (connectLoop tries ok r).finalReconnects = 0
    ∧ 1 ≤ (connectLoop tries ok r).attempts
    ∧ (connectLoop tries ok r).attempts ≤ max (tries - r) 1
    ∧ (connectLoop tries ok r).sleeps + 1 = (connectLoop tries ok r).attempts
    ∧ ((∀ k, ok k = false) →
        (connectLoop tries ok r).success = false
        ∧ (connectLoop tries ok r).attempts = max (tries - r) 1)
    ∧ (ok (r + 1) = true → connectLoop tries ok r = ⟨true, 1, 0, 0⟩) := by
  induction n with
  | zero =>
    intro tries ok r hn
    rw [connectLoop]
    by_cases hk : ok (r + 1) = true
    · rw [if_pos hk]
      refine ⟨rfl, le_refl _, le_max_right _ _, rfl, ?_, fun _ => rfl⟩
      intro hfail
      exact absurd ((hfail (r + 1)).symm.trans hk) Bool.false_ne_true
    · rw [if_neg hk]
      have hlt : ¬ (r + 1 < tries) := by omega
      rw [dif_neg hlt]
      refine ⟨rfl, le_refl _, le_max_right _ _, rfl, ?_, ?_⟩
      · intro _
        exact ⟨rfl, (Nat.max_eq_right (show tries - r ≤ 1 by omega)).symm⟩
      · intro hok
        exact absurd hok hk
  | succ n ih =>
    intro tries ok r hn
    rw [connectLoop]
    by_cases hk : ok (r + 1) = true
    · rw [if_pos hk]
      refine ⟨rfl, le_refl _, le_max_right _ _, rfl, ?_, fun _ => rfl⟩
      intro hfail
      exact absurd ((hfail (r + 1)).symm.trans hk) Bool.false_ne_true
    · rw [if_neg hk]
      by_cases hlt : r + 1 < tries
      · rw [dif_pos hlt]
        obtain ⟨i1, i2, i3, i4, i5, i6⟩ := ih tries ok (r + 1) (by omega)
        have hmax1 : max (tries - r) 1 = tries - r :=
          Nat.max_eq_left (show 1 ≤ tries - r by omega)
        have hmax2 : max (tries - (r + 1)) 1 = tries - (r + 1) :=
          Nat.max_eq_left (show 1 ≤ tries - (r + 1) by omega)
        rw [hmax2] at i3 i5
        refine ⟨i1, ?_, ?_, ?_, ?_, ?_⟩
        · show 1 ≤ (connectLoop tries ok (r + 1)).attempts + 1
          omega
        · show (connectLoop tries ok (r + 1)).attempts + 1 ≤ max (tries - r) 1
          rw [hmax1]
          omega
        · show (connectLoop tries ok (r + 1)).sleeps + 1 + 1
            = (connectLoop tries ok (r + 1)).attempts + 1
          omega
        · intro hfail
          obtain ⟨f1, f2⟩ := i5 hfail
          refine ⟨f1, ?_⟩
          show (connectLoop tries ok (r + 1)).attempts + 1 = max (tries - r) 1
          rw [hmax1]
          omega
        · intro hok
          exact absurd hok hk
      · rw [dif_neg hlt]
        refine ⟨rfl, le_refl _, le_max_right _ _, rfl, ?_, ?_⟩
        · intro _
          exact ⟨rfl, (Nat.max_eq_right (show tries - r ≤ 1 by omega)).symm⟩
        · intro hok
          exact absurd hok hk

/-- C7 counterexample: the claim says connect makes at most reconnect_tries
handshake attempts, but with reconnect_tries = 0 and no stream available the
loop body runs before the bound is checked, so one attempt is made
(src/node/client.rs lines 315-328: reconnects is incremented and the
handshake attempted before reconnects < reconnect_tries is consulted). -/
theorem c7_connect_counterexample :
    (managerConnect false 0 (fun _ => false) 0).attempts = 1
    ∧ ¬ ((managerConnect false 0 (fun _ => false) 0).attempts ≤ 0) := by
  constructor
  · simp [managerConnect, connectLoop]
  · simp [managerConnect, connectLoop]

/-- C7 (amended): connect returns Ok immediately with no attempt when the
stream is available; otherwise, starting from counter 0, it makes at least
one and at most max(reconnect_tries, 1) consecutive handshake attempts
(incrementing the counter before each attempt, so an attempt is made even
when reconnect_tries = 0), with a fixed 5-second sleep between consecutive
failed attempts; on a successful attempt it resets the counter to 0 and
returns Ok, and when every attempt fails it exhausts exactly
max(reconnect_tries, 1) attempts, resets the counter to 0, and returns the
transport error (src/node/client.rs lines 276-351). -/
theorem c7_connect_amended (tries : Nat) (ok : Nat → Bool) (r : Nat) :
    managerConnect true tries ok r
      = { success := true, attempts := 0, sleeps := 0, finalReconnects := r }
    ∧ 1 ≤ (managerConnect false tries ok 0).attempts
    ∧ (managerConnect false tries ok 0).attempts ≤ max tries 1
    ∧ (managerConnect false tries ok 0).finalReconnects = 0
    ∧ (managerConnect false tries ok 0).sleeps + 1
        = (managerConnect false tries ok 0).attempts
    ∧ ((∀ k, ok k = false) →
        (managerConnect false tries ok 0).success = false
        ∧ (managerConnect false tries ok 0).attempts = max tries 1)
    ∧ (ok 1 = true → managerConnect false tries ok 0 = ⟨true, 1, 0, 0⟩) := by
  have h := connectLoop_props tries tries ok 0 (by omega)
  rw [Nat.sub_zero] at h
  exact ⟨rfl, h.2.1, h.2.2.1, h.1, h.2.2.2.1, h.2.2.2.2.1, h.2.2.2.2.2⟩

/-- C7 witness: with reconnect_tries = 2 and an always-failing handshake,
connect from an unavailable stream fails after exactly max(2, 1) = 2
attempts with the counter reset to 0, and with the stream available it
short-circuits to Ok leaving the counter at 7. -/
theorem c7_connect_amended_witness :
    managerConnect true 2 (fun _ => false) 7
      = { success := true, attempts := 0, sleeps := 0, finalReconnects := 7 }
    ∧ (managerConnect false 2 (fun _ => false) 0).success = false
    ∧ (managerConnect false 2 (fun _ => false) 0).attempts = max 2 1
    ∧ (managerConnect false 2 (fun _ => false) 0).finalReconnects = 0 := by
  have h := c7_connect_amended 2 (fun _ => false) 7
  exact ⟨h.1, (h.2.2.2.2.2.1 (fun _ => rfl)).1,
    (h.2.2.2.2.2.1 (fun _ => rfl)).2, h.2.2.2.1⟩

/-- Absence of an owner in the registry scan means no node subscription map
contains the guild id. -/
theorem getNodeForPlayer_none_iff (r : RegistryState) (g : Nat) :
    getNodeForPlayer r g = none ↔ ∀ p ∈ r.nodes, g ∉ p.2 := by
  unfold getNodeForPlayer
  simp [List.find?_eq_none]

theorem countP_insertSub_other (nodes : List (String × List Nat)) (name : String)
    (g g' : Nat) (hne : g' ≠ g) :
    (insertSub nodes name g).countP (fun p => decide (g' ∈ p.2))
      = nodes.countP (fun p => decide (g' ∈ p.2)) := by
  induction nodes with
  | nil => rfl
  | cons hd tl ih =>
    obtain ⟨n, subs⟩ := hd
    by_cases hn : n = name
    · have step : insertSub ((n, subs) :: tl) name g = (n, g :: subs) :: tl := by
        simp [insertSub, hn]
      rw [step]
      simp [List.countP_cons, hne]
    · have step : insertSub ((n, subs) :: tl) name g
          = (n, subs) :: insertSub tl name g := by
        simp [insertSub, hn]
      rw [step]
      simp [List.countP_cons, ih]

theorem countP_notMem_zero (nodes : List (String × List Nat)) (g : Nat)
    (hnone : ∀ p ∈ nodes, g ∉ p.2) :
    nodes.countP (fun p => decide (g ∈ p.2)) = 0 := by
  rw [List.countP_eq_zero]
  intro p hp
  simpa using hnone p hp

theorem countP_insertSub_self (nodes : List (String × List Nat)) (name : String)
    (g : Nat) (hnone : ∀ p ∈ nodes, g ∉ p.2) :
    (insertSub nodes name g).countP (fun p => decide (g ∈ p.2)) ≤ 1 := by
  induction nodes with
  | nil => simp [insertSub]
  | cons hd tl ih =>
    obtain ⟨n, subs⟩ := hd
    have hhd : g ∉ subs := by
      have := hnone (n, subs) (List.mem_cons_self _ _)
      simpa using this
    have htl : ∀ p ∈ tl, g ∉ p.2 := fun p hp => hnone p (List.mem_cons_of_mem _ hp)
    by_cases hn : n = name
    · have step : insertSub ((n, subs) :: tl) name g = (n, g :: subs) :: tl := by
        simp [insertSub, hn]
      have h0 : tl.countP (fun p => decide (g ∈ p.2)) = 0 := countP_notMem_zero tl g htl
      rw [step]
      simp [List.countP_cons, h0]
    · have step : insertSub ((n, subs) :: tl) name g
          = (n, subs) :: insertSub tl name g := by
        simp [insertSub, hn]
      rw [step]
      have := ih htl
      simp [List.countP_cons, hhd]
      exact this

theorem countP_insertSub_self_eq (nodes : List (String × List Nat)) (name : String)
    (g : Nat) (hnone : ∀ p ∈ nodes, g ∉ p.2) (hmem : name ∈ nodes.map Prod.fst) :
    (insertSub nodes name g).countP (fun p => decide (g ∈ p.2)) = 1 := by
  induction nodes with
  | nil => simp at hmem
  | cons hd tl ih =>
    obtain ⟨n, subs⟩ := hd
    have hhd : g ∉ subs := by
      have := hnone (n, subs) (List.mem_cons_self _ _)
      simpa using this
    have htl : ∀ p ∈ tl, g ∉ p.2 := fun p hp => hnone p (List.mem_cons_of_mem _ hp)
    by_cases hn : n = name
    · have step : insertSub ((n, subs) :: tl) name g = (n, g :: subs) :: tl := by
        simp [insertSub, hn]
      have h0 : tl.countP (fun p => decide (g ∈ p.2)) = 0 := countP_notMem_zero tl g htl
      rw [step]
      simp [List.countP_cons, h0]
    · have step : insertSub ((n, subs) :: tl) name g
          = (n, subs) :: insertSub tl name g := by
        simp [insertSub, hn]
      have hm2 : name ∈ tl.map Prod.fst := by
        rw [List.map_cons] at hmem
        rcases List.mem_cons.mp hmem with h | h
        · exact absurd h.symm hn
        · exact h
      rw [step]
      have := ih htl hm2
      simp [List.countP_cons, hhd]
      exact this

theorem countP_removeSub_le (nodes : List (String × List Nat)) (name : String)
    (g g' : Nat) :
    (removeSub nodes name g).countP (fun p => decide (g' ∈ p.2))
      ≤ nodes.countP (fun p => decide (g' ∈ p.2)) := by
  induction nodes with
  | nil => simp [removeSub]
  | cons hd tl ih =>
    obtain ⟨n, subs⟩ := hd
    by_cases hn : n = name
    · have step : removeSub ((n, subs) :: tl) name g = (n, subs.erase g) :: tl := by
        simp [removeSub, hn]
      rw [step]
      simp only [List.countP_cons]
      have hle : (if decide (g' ∈ subs.erase g) = true then 1 else 0)
          ≤ (if decide (g' ∈ subs) = true then 1 else 0) := by
        by_cases h1 : g' ∈ subs.erase g
        · have h2 : g' ∈ subs := List.mem_of_mem_erase h1
          simp [h1, h2]
        · simp [h1]
      exact Nat.add_le_add_left hle _
    · have step : removeSub ((n, subs) :: tl) name g
          = (n, subs) :: removeSub tl name g := by
        simp [removeSub, hn]
      rw [step]
      simp only [List.countP_cons]
      exact Nat.add_le_add_right ih _

end Anchorage

namespace Anchorage

theorem find_insertSub_self (nodes : List (String × List Nat)) (name : String)
    (g : Nat) (hnone : ∀ p ∈ nodes, g ∉ p.2) (hmem : name ∈ nodes.map Prod.fst) :
    ((insertSub nodes name g).find? (fun p => p.2.contains g)).map Prod.fst = some name := by
  induction nodes with
  | nil => simp at hmem
  | cons hd tl ih =>
    obtain ⟨n, subs⟩ := hd
    have hhd : g ∉ subs := by
      have := hnone (n, subs) (List.mem_cons_self _ _)
      simpa using this
    have htl : ∀ p ∈ tl, g ∉ p.2 := fun p hp => hnone p (List.mem_cons_of_mem _ hp)
    by_cases hn : n = name
    · have step : insertSub ((n, subs) :: tl) name g = (n, g :: subs) :: tl := by
        simp [insertSub, hn]
      rw [step, List.find?_cons_of_pos _ (by simp)]
      simp [hn]
    · have step : insertSub ((n, subs) :: tl) name g
          = (n, subs) :: insertSub tl name g := by
        simp [insertSub, hn]
      have hm2 : name ∈ tl.map Prod.fst := by
        rw [List.map_cons] at hmem
        rcases List.mem_cons.mp hmem with h | h
        · exact absurd h.symm hn
        · exact h
      rw [step, List.find?_cons_of_neg _ (by simp [hhd])]
      exact ih htl hm2

theorem ownerCount_eq_countP (r : RegistryState) (g : Nat) :
    ownerCount r g = r.nodes.countP (fun p => decide (g ∈ p.2)) := by
  unfold ownerCount
  simp

theorem applyOp_preserves (r : RegistryState) (op : RegistryOp)
    (hinv : UniqueOwnership r) : UniqueOwnership (applyOp r op) := by
  cases op with
  | create g n pok =>
    show UniqueOwnership (match createPlayer r g n pok with
      | Except.ok r2 => r2
      | Except.error _ => r)
    unfold createPlayer
    by_cases hsome : (getNodeForPlayer r g).isSome = true
    · rw [if_pos hsome]
      exact hinv
    · rw [if_neg hsome]
      have hnone := (getNodeForPlayer_none_iff r g).mp
        (Option.not_isSome_iff_eq_none.mp hsome)
      by_cases hok : pok = true
      · rw [if_pos hok]
        intro g2
        rw [ownerCount_eq_countP]
        show (insertSub r.nodes n g).countP (fun p => decide (g2 ∈ p.2)) ≤ 1
        by_cases hg : g2 = g
        · subst hg
          exact countP_insertSub_self r.nodes n g2 hnone
        · rw [countP_insertSub_other r.nodes n g g2 hg]
          have h2 := hinv g2
          rw [ownerCount_eq_countP] at h2
          exact h2
      · rw [if_neg hok]
        exact hinv
  | destroy g rok =>
    show UniqueOwnership (match (destroyPlayer r g rok).1 with
      | Except.ok r2 => r2
      | Except.error _ => r)
    unfold destroyPlayer
    cases hfind : getNodeForPlayer r g with
    | none => exact hinv
    | some name =>
        cases rok with
        | false => exact hinv
        | true =>
          intro g2
          rw [ownerCount_eq_countP]
          show (removeSub r.nodes name g).countP (fun p => decide (g2 ∈ p.2)) ≤ 1
          have h2 := hinv g2
          rw [ownerCount_eq_countP] at h2
          exact le_trans (countP_removeSub_le r.nodes name g g2) h2

theorem runOps_preserves (ops : List RegistryOp) :
    ∀ r : RegistryState, UniqueOwnership r → UniqueOwnership (runOps r ops) := by
  induction ops with
  | nil => exact fun r h => h
  | cons op rest ih => exact fun r h => ih (applyOp r op) (applyOp_preserves r op h)

/-- C6: after any sequence of create_player / destroy_player operations from
a state satisfying unique ownership, every tenant id is contained in the
subscription map of at most one node fleet-wide; create_player returns
CreateExistingPlayer whenever some node already contains the tenant id, and
otherwise registers the tenant event-sender in exactly the chosen node's
subscription map: only that node's entry gains the id and it becomes the
single owner (src/lib.rs lines 128-158). -/
theorem c6_unique_ownership (r : RegistryState) (ops : List RegistryOp)
    (g : Nat) (node : String) (pok : Bool) (hinv : UniqueOwnership r) :
    UniqueOwnership (runOps r ops)
    ∧ ((getNodeForPlayer r g).isSome →
        createPlayer r g node pok = .error AnchorageError.CreateExistingPlayer)
    ∧ (getNodeForPlayer r g = none → node ∈ r.nodes.map Prod.fst →
        ∃ r2, createPlayer r g node true = .ok r2
          ∧ r2.nodes = insertSub r.nodes node g
          ∧ getNodeForPlayer r2 g = some node
          ∧ ownerCount r2 g = 1) := by
  refine ⟨runOps_preserves ops r hinv, ?_, ?_⟩
  · intro hsome
    unfold createPlayer
    rw [if_pos hsome]
  · intro hnone hmem
    have hn2 := (getNodeForPlayer_none_iff r g).mp hnone
    have hnotsome : ¬ ((getNodeForPlayer r g).isSome = true) := by simp [hnone]
    refine ⟨{ r with nodes := insertSub r.nodes node g }, ?_, rfl, ?_, ?_⟩
    · unfold createPlayer
      rw [if_neg hnotsome]
      rfl
    · show ((insertSub r.nodes node g).find? (fun p => p.2.contains g)).map
        (fun p => p.1) = some node
      exact find_insertSub_self r.nodes node g hn2 hmem
    · rw [ownerCount_eq_countP]
      show (insertSub r.nodes node g).countP (fun p => decide (g ∈ p.2)) = 1
      exact countP_insertSub_self_eq r.nodes node g hn2 hmem

/-- C6 witness: from the empty two-node registry, the operation sequence
create 42 on a, create 42 on b (rejected), destroy 42 preserves unique
ownership; creating 42 when a already owns it yields CreateExistingPlayer;
and a fresh create registers 42 exactly on node a. -/
theorem c6_unique_ownership_witness :
    UniqueOwnership (runOps exampleRegistry
      [RegistryOp.create 42 "a" true, RegistryOp.create 42 "b" true,
       RegistryOp.destroy 42 true])
    ∧ createPlayer exampleRegistryOwned 42 "b" true
        = .error AnchorageError.CreateExistingPlayer
    ∧ ∃ r2, createPlayer exampleRegistry 42 "a" true = .ok r2
        ∧ r2.nodes = insertSub exampleRegistry.nodes "a" 42
        ∧ getNodeForPlayer r2 42 = some "a"
        ∧ ownerCount r2 42 = 1 := by
  have hinv1 : UniqueOwnership exampleRegistry := by
    intro g2
    simp [UniqueOwnership, ownerCount, exampleRegistry]
  have hinv2 : UniqueOwnership exampleRegistryOwned := by
    intro g2
    simp [UniqueOwnership, ownerCount, exampleRegistryOwned, List.countP_cons]
    split <;> omega
  have h1 := c6_unique_ownership exampleRegistry
    [RegistryOp.create 42 "a" true, RegistryOp.create 42 "b" true,
     RegistryOp.destroy 42 true] 42 "a" true hinv1
  have h2 := c6_unique_ownership exampleRegistryOwned [] 42 "b" true hinv2
  exact ⟨h1.1, h2.2.1 rfl, h1.2.2 rfl (by simp [exampleRegistry])⟩

/-- C8: the shared make_request path turns any non-2xx status into
ResponseReceivedNotOk carrying that status, an empty body into Ok none
(which value-returning operations such as get_player translate to
NothingReturned while destroy_player and unmark_failed_address discard it
and return Ok), and a non-empty body the decoder rejects into the decode
error (src/node/rest.rs lines 120-131, 173-183, 195-217). -/
theorem c8_response_contract {α : Type} (dec : String → Option α)
    (decU : String → Option Unit) (resp : HttpResponse) (sid base : String)
    (g : Nat) (addr : String) (oracle : HttpRequest → HttpResponse) :
    (¬ isSuccess resp.status = true →
      makeRequest dec resp = .error (.ResponseReceivedNotOk resp.status))
    ∧ (isSuccess resp.status = true → resp.body = "" →
      makeRequest dec resp = .ok none
      ∧ requireValue (makeRequest dec resp) = .error .NothingReturned)
    ∧ (isSuccess resp.status = true → resp.body ≠ "" → dec resp.body = none →
      makeRequest dec resp = .error .SerdeParse)
    ∧ (∀ v, isSuccess resp.status = true → resp.body ≠ "" → dec resp.body = some v →
      requireValue (makeRequest dec resp) = .ok v)
    ∧ (¬ isSuccess (oracle (getPlayerReq base sid g)).status = true →
      restGetPlayer (some sid) base g oracle dec
        = (.error (.ResponseReceivedNotOk (oracle (getPlayerReq base sid g)).status),
           [getPlayerReq base sid g]))
    ∧ (isSuccess (oracle (getPlayerReq base sid g)).status = true →
       (oracle (getPlayerReq base sid g)).body = "" →
      restGetPlayer (some sid) base g oracle dec
        = (.error .NothingReturned, [getPlayerReq base sid g]))
    ∧ (isSuccess (oracle (destroyPlayerReq base sid g)).status = true →
       (oracle (destroyPlayerReq base sid g)).body = "" →
      restDestroyPlayer (some sid) base g oracle decU
        = (.ok (), [destroyPlayerReq base sid g]))
    ∧ (isSuccess (oracle (unmarkReq base addr)).status = true →
       (oracle (unmarkReq base addr)).body = "" →
      restUnmarkFailedAddress base addr oracle decU
        = (.ok (), [unmarkReq base addr])) := by
  refine ⟨?_, ?_, ?_, ?_, ?_, ?_, ?_, ?_⟩
  · intro h
    unfold makeRequest
    rw [if_neg h]
  · intro h1 h2
    unfold makeRequest
    rw [if_pos h1, if_pos h2]
    exact ⟨rfl, rfl⟩
  · intro h1 h2 h3
    unfold makeRequest
    rw [if_pos h1, if_neg h2, h3]
  · intro v h1 h2 h3
    unfold requireValue makeRequest
    rw [if_pos h1, if_neg h2, h3]
  · intro h
    have hm : makeRequest dec (oracle (getPlayerReq base sid g))
        = .error (.ResponseReceivedNotOk (oracle (getPlayerReq base sid g)).status) := by
      unfold makeRequest
      rw [if_neg h]
    show (requireValue (makeRequest dec (oracle (getPlayerReq base sid g))),
      [getPlayerReq base sid g])
      = (.error (.ResponseReceivedNotOk (oracle (getPlayerReq base sid g)).status),
         [getPlayerReq base sid g])
    rw [hm]
    rfl
  · intro h1 h2
    have hm : makeRequest dec (oracle (getPlayerReq base sid g)) = .ok none := by
      unfold makeRequest
      rw [if_pos h1, if_pos h2]
    show (requireValue (makeRequest dec (oracle (getPlayerReq base sid g))),
      [getPlayerReq base sid g])
      = (.error .NothingReturned, [getPlayerReq base sid g])
    rw [hm]
    rfl
  · intro h1 h2
    have hm : makeRequest decU (oracle (destroyPlayerReq base sid g)) = .ok none := by
      unfold makeRequest
      rw [if_pos h1, if_pos h2]
    show ((makeRequest decU (oracle (destroyPlayerReq base sid g))).map (fun _ => ()),
      [destroyPlayerReq base sid g])
      = (.ok (), [destroyPlayerReq base sid g])
    rw [hm]
    rfl
  · intro h1 h2
    have hm : makeRequest decU (oracle (unmarkReq base addr)) = .ok none := by
      unfold makeRequest
      rw [if_pos h1, if_pos h2]
    show ((makeRequest decU (oracle (unmarkReq base addr))).map (fun _ => ()),
      [unmarkReq base addr])
      = (.ok (), [unmarkReq base addr])
    rw [hm]
    rfl

/-- C8 witness: a 404 response yields ResponseReceivedNotOk 404; a 200
response whose non-empty body the decoder rejects yields the decode error;
get_player on a 204 empty-body response yields NothingReturned while
destroy_player and unmark_failed_address return Ok on the same response. -/
theorem c8_response_contract_witness :
    makeRequest (fun _ => (none : Option Nat)) { status := 404, body := "err" }
      = .error (.ResponseReceivedNotOk 404)
    ∧ makeRequest (fun _ => (none : Option Nat)) { status := 200, body := "garbage" }
      = .error .SerdeParse
    ∧ restGetPlayer (some "s") "b" 7 oracleEmpty (fun _ => (none : Option Nat))
      = (.error .NothingReturned, [getPlayerReq "b" "s" 7])
    ∧ restDestroyPlayer (some "s") "b" 7 oracleEmpty (fun _ => none)
      = (.ok (), [destroyPlayerReq "b" "s" 7])
    ∧ restUnmarkFailedAddress "b" "addr" oracleEmpty (fun _ => none)
      = (.ok (), [unmarkReq "b" "addr"]) := by
  have h404 := c8_response_contract (fun _ => (none : Option Nat)) (fun _ => none)
    { status := 404, body := "err" } "s" "b" 7 "addr" oracleEmpty
  have hgarb := c8_response_contract (fun _ => (none : Option Nat)) (fun _ => none)
    { status := 200, body := "garbage" } "s" "b" 7 "addr" oracleEmpty
  exact ⟨h404.1 (by decide), hgarb.2.2.1 (by decide) (by decide) rfl,
    h404.2.2.2.2.2.1 (by decide) rfl,
    h404.2.2.2.2.2.2.1 (by decide) rfl,
    h404.2.2.2.2.2.2.2 (by decide) rfl⟩

end Anchorage
